import Mathlib

/-!
Shallow embedding of the `display-name` lint rule from
`crates/oxc_linter/src/rules/react/display_name.rs`, together with proofs
checking the natural-language specification against it.

Modelling conventions:
* AST types (`Expression`, `Argument`, `ObjectProperty`, `BindingPatternKind`,
  `VariableDeclarator`, `AstKind`) embed exactly the shape the rule's code
  inspects.  External collaborators (the parser, `oxc_ast`'s `PropName` and
  `static_property_name`, `oxc_span`'s `GetSpan`, the semantic model's
  symbol-to-declaration lookup) are modelled at their interface: a member
  expression carries the `Option String` that `static_property_name` would
  return, an object property carries the `Option String` that `prop_name`
  would return, and `run_on_symbol` receives the declaring `AstNode` that
  `ctx.symbols().get_declaration` / `ctx.nodes().get_node` would have fetched.
* Spans are `u32` pairs in the source; no arithmetic is ever performed on
  them here, so they are embedded as plain naturals.
* `serde_json::Value` is embedded as `Json`; the derived `Deserialize` for
  the camelCase rule-options struct (two `#[serde(default)]` `bool` fields)
  is embedded at its interface by `deserializeDisplayName`.
-/

namespace DisplayNameRule

/-- Source range of a node (`oxc_span::Span`, two `u32` offsets). -/
structure Span where
  start : Nat
  end_ : Nat
deriving DecidableEq, Repr

/-- The rule options struct `DisplayName` (serde camelCase, both fields
defaulted to `false`). -/
structure DisplayName where
  check_context_objects : Bool
  ignore_transpiler_name : Bool
deriving DecidableEq, Repr

/-- The three-way classification `ComponentType` from the source. -/
inductive ComponentType where
  | Named
  | TranspilerNamed
  | Unnamed
deriving DecidableEq, Repr

/-- An entry of an object literal, at the interface the rule uses:
`prop_name` is the `Option` result of `oxc_ast`'s `PropName::prop_name`
(the statically known property name, when there is one). -/
structure ObjectProperty where
  prop_name : Option String
deriving DecidableEq, Repr

/-- A call argument (`oxc_ast::ast::Argument`): either a spread element or a
plain expression, parametric so it can be nested inside `Expression`. -/
inductive ArgumentOf (α : Type) where
  | spreadElement
  | expression (expr : α)
deriving DecidableEq, Repr

/-- The expression forms the rule's code distinguishes.  A member expression
carries the interface result of `static_property_name` (`some name` when the
property name is statically known, `none` when it is computed or private).
Every expression form the code never matches on is collapsed into
`otherExpression`, exactly as the code's `_` arms treat them. -/
inductive Expression where
  | identifier (name : String)
  | memberExpression (object : Expression) (staticPropertyName : Option String)
  | callExpression (callee : Expression) (arguments : List (ArgumentOf Expression))
  | objectExpression (properties : List ObjectProperty)
  | otherExpression

/-- Call arguments instantiated at `Expression`. -/
abbrev Argument := ArgumentOf Expression

/-- `oxc_ast::ast::BindingPatternKind`: the binding position of a variable
declarator.  The code only distinguishes `BindingIdentifier` from the rest. -/
inductive BindingPatternKind where
  | bindingIdentifier (name : String)
  | objectPattern
  | arrayPattern
  | assignmentPattern

/-- A variable declarator: its binding pattern kind (`var_decl.id.kind`) and
optional initializer (`var_decl.init`). -/
structure VariableDeclarator where
  id : BindingPatternKind
  init : Option Expression

/-- The `AstKind` variants relevant to the rule.  `get_component_type` only
matches `VariableDeclarator`; class declarations (with their optional name
and optional superclass expression) and all remaining kinds fall into the
code's `_` arm. -/
inductive AstKind where
  | variableDeclarator (var_decl : VariableDeclarator)
  | classDeclaration (id : Option String) (superClass : Option Expression)
  | otherKind

/-- An AST node as the driver sees it: its kind and its source span
(`node.kind().span()`). -/
structure AstNode where
  kind : AstKind
  span : Span

/-- The diagnostic struct `DisplayNameDiagnostic(#[label] pub Span)`. -/
structure DisplayNameDiagnostic where
  span : Span
deriving DecidableEq, Repr

/-- Embedding of `get_expr_ident` (display_name.rs lines 53-62): an
identifier resolves to its name; a member expression resolves its object
recursively and, when that succeeds, maps `static_property_name` to
`"<object>.<property>"`; everything else resolves to `None`. -/
def get_expr_ident : Expression → Option String
  | Expression.identifier name => some name
  | Expression.memberExpression object staticPropertyName =>
    match get_expr_ident object with
    | none => none
    | some parent_name => staticPropertyName.map (fun it => parent_name ++ "." ++ it)
  | _ => none

/-- Embedding of `get_component_type` (display_name.rs lines 64-114).  Note
that the source computes `var_name` from the binding pattern but never uses
it (it is only printed under `debug_assertions`); the embedding keeps the
unused binding to mirror that. -/
def get_component_type (node : AstKind) : Option ComponentType :=
  match node with
  | AstKind.variableDeclarator var_decl =>
    let _var_name : Option String :=
      match var_decl.id with
      | BindingPatternKind.bindingIdentifier ident => some ident
      | _ => none
    match var_decl.init with
    | none => none
    | some init =>
      match init with
      | Expression.callExpression callee arguments =>
        match get_expr_ident callee with
        | none => none
        | some ident =>
          if ident != "createReactClass" && ident != "createClass"
              && ident != "React.createClass" then
            none
          else
            match arguments with
            | [ArgumentOf.expression (Expression.objectExpression obj_props)] =>
              let has_display_name := obj_props.any (fun it =>
                match it.prop_name with
                | some name => name == "displayName"
                | none => false)
              if has_display_name then
                some ComponentType.Named
              else
                some ComponentType.TranspilerNamed
            | _ => none
      | _ => none
  | _ => none

/-- The reporting decision of `run_on_symbol` (the `match component_type`
expression at display_name.rs lines 146-150): `TranspilerNamed` reports when
`ignore_transpiler_name` is set, `Unnamed` always reports, `Named` never. -/
def report_decision (self : DisplayName) (component_type : ComponentType) : Bool :=
  match component_type with
  | ComponentType.TranspilerNamed => self.ignore_transpiler_name
  | ComponentType.Unnamed => true
  | _ => false

/-- Embedding of `run_on_symbol` (display_name.rs lines 135-153), applied to
the declaring node of the symbol (the semantic model's
`get_declaration`/`get_node` lookup is external).  Returns the emitted
diagnostic, if any: `DisplayNameDiagnostic(node.kind().span())` exactly when
the classification exists and `report_decision` accepts it. -/
def run_on_symbol (self : DisplayName) (node : AstNode) : Option DisplayNameDiagnostic :=
  match get_component_type node.kind with
  | none => none
  | some component_type =>
    if report_decision self component_type then
      some ⟨node.span⟩
    else
      none

/-- Embedding of `serde_json::Value`.  Numbers never matter to this rule's
configuration decoding, so they are carried as integers. -/
inductive Json where
  | null
  | bool (b : Bool)
  | num (n : Int)
  | str (s : String)
  | arr (items : List Json)
  | obj (fields : List (String × Json))

/-- Interface model of looking up a field of a JSON object by key. -/
def Json.getField (fields : List (String × Json)) (key : String) : Option Json :=
  (fields.find? (fun p => p.fst == key)).map Prod.snd

/-- Interface model of decoding one `#[serde(default)] bool` field: an absent
field yields the default `false`, a boolean field yields its value, and a
field of any other type is a deserialization error. -/
def fieldAsBool (fields : List (String × Json)) (key : String) : Option Bool :=
  match Json.getField fields key with
  | none => some false
  | some (Json.bool b) => some b
  | some _ => none

/-- Interface model of the derived `Deserialize` for the rule options struct
(display_name.rs lines 23-30): camelCase field names, both fields
`#[serde(default)]` booleans, input must be a JSON object, unknown fields
ignored. -/
def deserializeDisplayName (value : Json) : Option DisplayName :=
  match value with
  | Json.obj fields =>
    match fieldAsBool fields "checkContextObjects",
        fieldAsBool fields "ignoreTranspilerName" with
    | some c, some i => some ⟨c, i⟩
    | _, _ => none
  | _ => none

/-- Embedding of `DeserializeConfig::config` (display_name.rs lines 119-126):
the value must be an array with exactly one element, and that element must
deserialize; any error is collapsed to `None` by `map_or`. -/
def config (value : Json) : Option DisplayName :=
  match value with
  | Json.arr items =>
    match items with
    | [value] => deserializeDisplayName value
    | _ => none
  | _ => none

/-- Embedding of `Rule::from_configuration` (display_name.rs lines 129-133):
decode the configuration, falling back to both flags `false`. -/
def from_configuration (value : Json) : DisplayName :=
  (config value).getD ⟨false, false⟩

/-! Concrete inputs used by counterexamples and witnesses. -/

/-- Object-literal argument `{ render: ... }`: a single property whose
statically known name is `render` (no `displayName` property). -/
def render_only_props : List ObjectProperty := [⟨some "render"⟩]

/-- The declarator `var Hello = createReactClass({ render: ... })`:
identifier binding, factory call with a sole object-literal argument that
has no `displayName` property. -/
def ex_factory_transpiler : AstNode :=
  ⟨AstKind.variableDeclarator
    ⟨BindingPatternKind.bindingIdentifier "Hello",
      some (Expression.callExpression (Expression.identifier "createReactClass")
        [ArgumentOf.expression (Expression.objectExpression render_only_props)])⟩,
    ⟨4, 34⟩⟩

/-- The declarator `var Hello = createReactClass({ displayName: ..., render: ... })`. -/
def ex_factory_named : AstNode :=
  ⟨AstKind.variableDeclarator
    ⟨BindingPatternKind.bindingIdentifier "Hello",
      some (Expression.callExpression (Expression.identifier "createReactClass")
        [ArgumentOf.expression
          (Expression.objectExpression [⟨some "displayName"⟩, ⟨some "render"⟩])])⟩,
    ⟨4, 60⟩⟩

/-- The declarator `var { x } = createReactClass({ render: ... })`: an
object-pattern binding (no identifier name) with a factory-call initializer
whose object literal has no `displayName` property. -/
def ex_destructured : VariableDeclarator :=
  ⟨BindingPatternKind.objectPattern,
    some (Expression.callExpression (Expression.identifier "createReactClass")
      [ArgumentOf.expression (Expression.objectExpression render_only_props)])⟩

/-- The declaration `class Hello extends React.Component { render() { ... } }`
(the render method is part of the class body; the rule's code never inspects
class payloads at all). -/
def ex_class_hello : AstNode :=
  ⟨AstKind.classDeclaration (some "Hello")
    (some (Expression.memberExpression (Expression.identifier "React") (some "Component"))),
    ⟨0, 80⟩⟩

/-- The declarator `const Hello = createContext()` (bare imported factory). -/
def ex_context_bare : AstNode :=
  ⟨AstKind.variableDeclarator
    ⟨BindingPatternKind.bindingIdentifier "Hello",
      some (Expression.callExpression (Expression.identifier "createContext") [])⟩,
    ⟨6, 30⟩⟩

/-- The declarator `const Hello = React.createContext()`. -/
def ex_context_pragma : AstNode :=
  ⟨AstKind.variableDeclarator
    ⟨BindingPatternKind.bindingIdentifier "Hello",
      some (Expression.callExpression
        (Expression.memberExpression (Expression.identifier "React") (some "createContext"))
        [])⟩,
    ⟨6, 36⟩⟩

/-- The factory-call classification exactly as claim C2's spec sentence
states it, for comparison with the source's `get_component_type`:
`Named` iff the object literal has a `displayName` property; else
`TranspilerNamed` iff the binding carries an identifier name; else
`Unnamed`. -/
def spec_factory_component_type (var_decl : VariableDeclarator)
    (obj_props : List ObjectProperty) : ComponentType :=
  if obj_props.any (fun it =>
      match it.prop_name with
      | some name => name == "displayName"
      | none => false) then
    ComponentType.Named
  else
    match var_decl.id with
    | BindingPatternKind.bindingIdentifier _ => ComponentType.TranspilerNamed
    | _ => ComponentType.Unnamed

/-- Claim C1 as stated is false: for `var Hello = createReactClass({ render: ... })`,
classified `TranspilerNamed`, the driver with `ignore_transpiler_name = false`
emits no diagnostic, although the claim says a diagnostic is emitted exactly
when the flag is false. -/
theorem claim_c1_counterexample :
    get_component_type ex_factory_transpiler.kind = some ComponentType.TranspilerNamed
      ∧ (DisplayName.mk false false).ignore_transpiler_name = false
      ∧ run_on_symbol ⟨false, false⟩ ex_factory_transpiler = none := by
  decide

/-- Claim C1, amended: for every symbol classified `TranspilerNamed`, the
driver reports a diagnostic (at the declaring node's span) if and only if
`ignore_transpiler_name` is true — the toggle is the reverse of the spec
sentence. -/
theorem claim_c1_amended (self : DisplayName) (node : AstNode)
    (h : get_component_type node.kind = some ComponentType.TranspilerNamed) :
    run_on_symbol self node =
      if self.ignore_transpiler_name then some ⟨node.span⟩ else none := by
  simp [run_on_symbol, h, report_decision]

/-- Witness for claim C1's amended theorem at a concrete transpiler-named
declarator with `ignore_transpiler_name = true`. -/
theorem claim_c1_witness :
    run_on_symbol ⟨false, true⟩ ex_factory_transpiler =
      some ⟨ex_factory_transpiler.span⟩ := by
  have h := claim_c1_amended ⟨false, true⟩ ex_factory_transpiler (by decide)
  simpa using h

/-- Claim C2 as stated is false: for `var { x } = createReactClass({ render: ... })`
(an object-pattern binding with no identifier name and no `displayName`
property) the claim's classification is `Unnamed`, but the source's
classifier returns `TranspilerNamed` — the computed binding name is never
consulted. -/
theorem claim_c2_counterexample :
    get_component_type (AstKind.variableDeclarator ex_destructured) =
        some ComponentType.TranspilerNamed
      ∧ spec_factory_component_type ex_destructured render_only_props =
        ComponentType.Unnamed := by
  decide

/-- Claim C2, amended: for every variable declarator whose initializer is a
call whose callee resolves to `createReactClass`, `createClass` or
`React.createClass` with a sole object-literal argument, the classifier
returns `Named` iff the object literal has a property literally named
`displayName`, and `TranspilerNamed` otherwise, regardless of the binding
pattern; `Unnamed` is never produced. -/
theorem claim_c2_amended (id : BindingPatternKind) (callee : Expression)
    (ident : String) (obj_props : List ObjectProperty)
    (hresolve : get_expr_ident callee = some ident)
    (hname : (ident == "createReactClass" || ident == "createClass"
      || ident == "React.createClass") = true) :
    get_component_type (AstKind.variableDeclarator
      ⟨id, some (Expression.callExpression callee
        [ArgumentOf.expression (Expression.objectExpression obj_props)])⟩) =
      some (if obj_props.any (fun it =>
          match it.prop_name with
          | some name => name == "displayName"
          | none => false) then ComponentType.Named else ComponentType.TranspilerNamed) := by
  have hcond : (ident != "createReactClass" && ident != "createClass"
      && ident != "React.createClass") = false := by
    cases h1 : ident == "createReactClass" <;>
      cases h2 : ident == "createClass" <;>
        cases h3 : ident == "React.createClass" <;>
          simp_all [bne]
  simp only [get_component_type, hresolve, hcond]
  cases hprops : obj_props.any (fun it =>
      match it.prop_name with
      | some name => name == "displayName"
      | none => false) <;>
    simp [hprops]

/-- Witness for claim C2's amended theorem: a destructured binding with a
`displayName`-carrying object literal classifies `Named`. -/
theorem claim_c2_witness :
    get_component_type (AstKind.variableDeclarator
      ⟨BindingPatternKind.objectPattern,
        some (Expression.callExpression (Expression.identifier "createClass")
          [ArgumentOf.expression
            (Expression.objectExpression [⟨some "displayName"⟩])])⟩) =
      some ComponentType.Named := by
  have h := claim_c2_amended BindingPatternKind.objectPattern
    (Expression.identifier "createClass") "createClass" [⟨some "displayName"⟩]
    (by decide) (by decide)
  simpa using h

/-- Claim C5: for every symbol whose declaration is classified `Named`, the
driver never emits a diagnostic, whatever the configuration. -/
theorem claim_c5_named_never_reports (self : DisplayName) (node : AstNode)
    (h : get_component_type node.kind = some ComponentType.Named) :
    run_on_symbol self node = none := by
  simp [run_on_symbol, h, report_decision]

/-- Witness for claim C5 at `var Hello = createReactClass({ displayName: ..., render: ... })`,
under both values of `ignore_transpiler_name`. -/
theorem claim_c5_witness :
    get_component_type ex_factory_named.kind = some ComponentType.Named
      ∧ run_on_symbol ⟨false, false⟩ ex_factory_named = none
      ∧ run_on_symbol ⟨false, true⟩ ex_factory_named = none := by
  refine ⟨by decide, ?_, ?_⟩
  · exact claim_c5_named_never_reports ⟨false, false⟩ ex_factory_named (by decide)
  · exact claim_c5_named_never_reports ⟨false, true⟩ ex_factory_named (by decide)

/-- Claim C3 fails on the code: for
`class Hello extends React.Component { render() { ... } }` the classifier
returns `None` (class declarations fall into `get_component_type`'s `_` arm)
and the driver emits no diagnostic under the default configuration, nor with
`ignore_transpiler_name` set — although the rule's own test fixtures expect
a diagnostic for this program with `ignoreTranspilerName: true`. -/
theorem claim_c3_class_never_classified :
    get_component_type ex_class_hello.kind = none
      ∧ run_on_symbol ⟨false, false⟩ ex_class_hello = none
      ∧ run_on_symbol ⟨false, true⟩ ex_class_hello = none := by
  decide

/-- Claim C4 fails on the code: for `const Hello = createContext()` and
`const Hello = React.createContext()` the classifier returns `None` (the
callee is not one of the three `createClass` names and
`check_context_objects` is never consulted), so the driver emits no
diagnostic even with `check_context_objects = true` and no `displayName`
assignment anywhere — although the rule's own test fixtures expect a
diagnostic here. -/
theorem claim_c4_context_never_classified :
    get_component_type ex_context_bare.kind = none
      ∧ get_component_type ex_context_pragma.kind = none
      ∧ run_on_symbol ⟨true, false⟩ ex_context_bare = none
      ∧ run_on_symbol ⟨true, false⟩ ex_context_pragma = none := by
  decide

/-- Claim C6: the driver's decision for `Unnamed` is to report under every
configuration, and every diagnostic the driver emits carries the declaring
node's source span. -/
theorem claim_c6_unnamed_always_reports_at_decl_span (self : DisplayName)
    (node : AstNode) (d : DisplayNameDiagnostic) :
    report_decision self ComponentType.Unnamed = true
      ∧ (run_on_symbol self node = some d → d = ⟨node.span⟩) := by
  constructor
  · rfl
  · intro h
    simp only [run_on_symbol] at h
    split at h
    · exact Option.noConfusion h
    · split at h
      · exact (Option.some.inj h).symm
      · exact Option.noConfusion h

/-- Witness for claim C6 at a configuration and node where the driver
does emit a diagnostic. -/
theorem claim_c6_witness :
    report_decision ⟨false, true⟩ ComponentType.Unnamed = true
      ∧ (⟨ex_factory_transpiler.span⟩ : DisplayNameDiagnostic) =
        ⟨ex_factory_transpiler.span⟩ := by
  have h := claim_c6_unnamed_always_reports_at_decl_span ⟨false, true⟩
    ex_factory_transpiler ⟨ex_factory_transpiler.span⟩
  exact ⟨h.1, h.2 (by decide)⟩

/-- Claim C7: the name resolver returns the identifier's name for an
identifier; for a member access it recursively resolves the object and, when
that succeeds and the property name is statically known, returns
`"<object>.<property>"`; when the object fails to resolve, or the property
name is not statically known, or the expression is of any other form, it
returns nothing. -/
theorem claim_c7_get_expr_ident_contract (name parent p : String)
    (obj1 obj2 callee : Expression) (pn : Option String)
    (args : List Argument) (props : List ObjectProperty)
    (hobj1 : get_expr_ident obj1 = some parent)
    (hobj2 : get_expr_ident obj2 = none) :
    get_expr_ident (Expression.identifier name) = some name
      ∧ get_expr_ident (Expression.memberExpression obj1 (some p)) =
        some (parent ++ "." ++ p)
      ∧ get_expr_ident (Expression.memberExpression obj2 pn) = none
      ∧ get_expr_ident (Expression.memberExpression obj1 none) = none
      ∧ get_expr_ident (Expression.callExpression callee args) = none
      ∧ get_expr_ident (Expression.objectExpression props) = none
      ∧ get_expr_ident Expression.otherExpression = none := by
  refine ⟨rfl, ?_, ?_, ?_, rfl, rfl, rfl⟩
  · simp [get_expr_ident, hobj1]
  · simp [get_expr_ident, hobj2]
  · simp [get_expr_ident, hobj1]

/-- Witness for claim C7 at concrete expressions: `x.b` resolves to `"x.b"`
and a member access on an unresolvable object resolves to nothing. -/
theorem claim_c7_witness :
    get_expr_ident (Expression.identifier "a") = some "a"
      ∧ get_expr_ident (Expression.memberExpression
          (Expression.identifier "x") (some "b")) = some ("x" ++ "." ++ "b")
      ∧ get_expr_ident (Expression.memberExpression
          Expression.otherExpression none) = none := by
  have h := claim_c7_get_expr_ident_contract "a" "x" "b" (Expression.identifier "x")
    Expression.otherExpression Expression.otherExpression none [] []
    (by decide) (by decide)
  exact ⟨h.1, h.2.1, h.2.2.1⟩

/-- Claim C8: whenever the configuration value fails to decode (it is
absent/null, not an array, not a one-element array, or its sole element is
not a decodable object), the rule is constructed with both flags at their
documented default `false`. -/
theorem claim_c8_defaults (value : Json) (h : config value = none) :
    from_configuration value = ⟨false, false⟩ := by
  simp [from_configuration, h]

/-- Witness for claim C8 at two concrete malformed configurations: the
absent value (`null`) and a one-element array whose element is not an
object. -/
theorem claim_c8_witness :
    from_configuration Json.null = ⟨false, false⟩
      ∧ from_configuration (Json.arr [Json.num 3]) = ⟨false, false⟩ := by
  exact ⟨claim_c8_defaults Json.null rfl,
    claim_c8_defaults (Json.arr [Json.num 3]) rfl⟩

/-- Claim C9: the classifier is total (it is a plain Lean function, so it
cannot raise), and every unrecognized shape — a non-declarator node, a
declarator without initializer, a non-call initializer, an unresolvable or
non-matching callee, or an argument list that is not a sole object literal —
classifies as `none`; and whenever the classification is `none` the driver
emits no diagnostic. -/
theorem claim_c9_unrecognized_shapes_silent (self : DisplayName) (node : AstNode)
    (id : BindingPatternKind) (nm : String) (cid : Option String)
    (csuper : Option Expression) (args : List Argument)
    (props : List ObjectProperty) (e1 : Expression)
    (hnm : (nm == "createReactClass" || nm == "createClass"
      || nm == "React.createClass") = false)
    (hnode : get_component_type node.kind = none) :
    get_component_type (AstKind.classDeclaration cid csuper) = none
      ∧ get_component_type AstKind.otherKind = none
      ∧ get_component_type (AstKind.variableDeclarator ⟨id, none⟩) = none
      ∧ get_component_type (AstKind.variableDeclarator
          ⟨id, some (Expression.identifier nm)⟩) = none
      ∧ get_component_type (AstKind.variableDeclarator
          ⟨id, some (Expression.objectExpression props)⟩) = none
      ∧ get_component_type (AstKind.variableDeclarator
          ⟨id, some Expression.otherExpression⟩) = none
      ∧ get_component_type (AstKind.variableDeclarator
          ⟨id, some (Expression.callExpression Expression.otherExpression args)⟩) = none
      ∧ get_component_type (AstKind.variableDeclarator
          ⟨id, some (Expression.callExpression (Expression.identifier nm) args)⟩) = none
      ∧ get_component_type (AstKind.variableDeclarator
          ⟨id, some (Expression.callExpression
            (Expression.identifier "createReactClass") [])⟩) = none
      ∧ get_component_type (AstKind.variableDeclarator
          ⟨id, some (Expression.callExpression (Expression.identifier "createReactClass")
            [ArgumentOf.spreadElement])⟩) = none
      ∧ get_component_type (AstKind.variableDeclarator
          ⟨id, some (Expression.callExpression (Expression.identifier "createReactClass")
            [ArgumentOf.expression e1,
              ArgumentOf.expression (Expression.objectExpression props)])⟩) = none
      ∧ get_component_type (AstKind.variableDeclarator
          ⟨id, some (Expression.callExpression (Expression.identifier "createReactClass")
            [ArgumentOf.expression (Expression.identifier nm)])⟩) = none
      ∧ run_on_symbol self node = none := by
  simp only [Bool.or_eq_false_iff] at hnm
  obtain ⟨⟨h1, h2⟩, h3⟩ := hnm
  refine ⟨rfl, rfl, ?_, ?_, ?_, ?_, ?_, ?_, ?_, ?_, ?_, ?_, ?_⟩
  · simp [get_component_type]
  · simp [get_component_type]
  · simp [get_component_type]
  · simp [get_component_type]
  · simp [get_component_type, get_expr_ident]
  · have hcond : (nm != "createReactClass" && nm != "createClass"
        && nm != "React.createClass") = true := by
      simp [bne, h1, h2, h3]
    simp only [get_component_type, get_expr_ident]
    rw [hcond]
    simp
  · simp [get_component_type, get_expr_ident]
  · simp [get_component_type, get_expr_ident]
  · simp [get_component_type, get_expr_ident]
  · simp [get_component_type, get_expr_ident]
  · simp [run_on_symbol, hnode]

/-- Witness for claim C9 at a concrete non-matching callee name and a
concrete non-declarator node. -/
theorem claim_c9_witness :
    get_component_type (AstKind.variableDeclarator
        ⟨BindingPatternKind.bindingIdentifier "X",
          some (Expression.callExpression (Expression.identifier "foo") [])⟩) = none
      ∧ run_on_symbol ⟨false, false⟩ ⟨AstKind.otherKind, ⟨0, 0⟩⟩ = none := by
  have h := claim_c9_unrecognized_shapes_silent ⟨false, false⟩
    ⟨AstKind.otherKind, ⟨0, 0⟩⟩ (BindingPatternKind.bindingIdentifier "X") "foo"
    none none [] [] Expression.otherExpression (by decide) (by decide)
  exact ⟨h.2.2.2.2.2.2.2.1, h.2.2.2.2.2.2.2.2.2.2.2.2⟩

/-- Claim C10: the classifier only ever produces `none`, `Named` or
`TranspilerNamed` — never `Unnamed` — and in particular a recognized factory
call with no `displayName` property under a destructuring binding with no
identifier name classifies `TranspilerNamed`, so the driver's
unconditional-report branch for `Unnamed` is unreachable. -/
theorem claim_c10_unnamed_unreachable (k : AstKind) :
    (get_component_type k = none
        ∨ get_component_type k = some ComponentType.Named
        ∨ get_component_type k = some ComponentType.TranspilerNamed)
      ∧ get_component_type (AstKind.variableDeclarator ex_destructured) =
        some ComponentType.TranspilerNamed := by
  refine ⟨?_, by decide⟩
  unfold get_component_type
  try simp only []
  repeat' split
  all_goals simp

end DisplayNameRule
